import Mathlib

/-!
Verification development for the PhotonX state-channel coordinator.

This file gives a shallow embedding of the coordinator core:
the channel state machine of apps/coordinator/src/services/ChannelManager.ts,
the protocol helper functions of packages/proto (createAddress,
createTokenAmount, the serialized channel-state codec) and the signature
helpers of packages/proto/src/eip712.ts (splitSignature, joinSignature,
validateSignature).

Modelling conventions:
- JavaScript strings are embedded as lists of characters (JStr).
- JavaScript bigint values are embedded as Int; the number fields that
  the code only compares and copies are embedded as Int as well.
- Thrown exceptions are embedded as Except values; an operation that
  throws returns an error and produces no new store, which mirrors the
  fact that the TypeScript code performs its database write only after
  all validations have passed.
- The database, the Redis cache and the in-memory cache are collapsed
  into one association list from channel id to channel document, because
  the code treats them as a single read-through and write-through view
  of the same data (getChannelState consults them in order and returns
  the first hit without ever reading the status field).
- The decimal and hexadecimal conversions performed by the JavaScript
  builtins toString, BigInt and parseInt are embedded by structurally
  recursive functions on the canonical representations those builtins
  produce and consume; inputs outside the canonical fragment are mapped
  to none, which models the exception the builtin would raise there.
-/

set_option maxRecDepth 40000

deriving instance DecidableEq for Except

namespace PhotonX

/-- A JavaScript string, embedded as its list of characters. -/
abbrev JStr := List Char

/-! ## Character classes and digit codecs -/

/-- Decimal digit test, the character class 0-9 of the address regex and
of the canonical bigint decimal representation. -/
def isDigitChar (c : Char) : Bool := 48 ≤ c.toNat && c.toNat ≤ 57

/-- Hexadecimal digit test as accepted by the regex a-fA-F0-9 and by
parseInt with radix 16. -/
def isJsHexDigit (c : Char) : Bool :=
  (48 ≤ c.toNat && c.toNat ≤ 57) || (97 ≤ c.toNat && c.toNat ≤ 102) ||
    (65 ≤ c.toNat && c.toNat ≤ 70)

/-- The model of String.prototype.toLowerCase on one character
(ASCII letters are shifted, everything else is unchanged). -/
def toLowerChar (c : Char) : Char :=
  if 65 ≤ c.toNat && c.toNat ≤ 90 then Char.ofNat (c.toNat + 32) else c

/-- The decimal digit character for a value below ten, as produced by the
JavaScript decimal toString. -/
def digitChar (d : Nat) : Char := "0123456789".data.getD d '9'

/-- Numeric value of a decimal digit character. -/
def charDigitVal (c : Char) : Nat := c.toNat - 48

/-- The lowercase hexadecimal digit character for a value below sixteen,
as produced by Number.prototype.toString with radix 16. -/
def hexCharOf (d : Nat) : Char := "0123456789abcdef".data.getD d 'f'

/-- Numeric value of a hexadecimal digit character under parseInt with
radix 16 (upper and lower case accepted). -/
def jsHexVal (c : Char) : Nat :=
  if c.toNat ≤ 57 then c.toNat - 48
  else if c.toNat ≤ 70 then c.toNat - 55
  else c.toNat - 87

/-- The sixteen lowercase hexadecimal digit characters; used to state the
lowercase preconditions of the round-trip claims. -/
def lowerHexChars : List Char := "0123456789abcdef".data

/-! ## Decimal printing and parsing (bigint toString and BigInt) -/

/-- Little-endian decimal digits of a natural number, with explicit fuel
so that the definition is structurally recursive. -/
def toDigitsRevAux : Nat → Nat → JStr
  | 0, _ => []
  | fuel + 1, n => if n = 0 then [] else digitChar (n % 10) :: toDigitsRevAux fuel (n / 10)

/-- The canonical decimal representation of a natural number, as produced
by the JavaScript toString of a nonnegative bigint. -/
def natToString10 (n : Nat) : JStr :=
  if n = 0 then ['0'] else (toDigitsRevAux n n).reverse

/-- Value of a most-significant-first decimal digit string. -/
def valMSB (s : JStr) : Nat := s.foldl (fun a c => 10 * a + charDigitVal c) 0

/-- Value of a least-significant-first decimal digit string. -/
def valLE (s : JStr) : Nat := s.foldr (fun c a => charDigitVal c + 10 * a) 0

/-- Parse a nonempty all-decimal digit string; the fragment of the BigInt
builtin exercised by canonical representations (anything else is none,
modelling the exception BigInt would raise on a malformed field). -/
def parseNatDigits (s : JStr) : Option Nat :=
  if s ≠ [] ∧ ∀ c ∈ s, isDigitChar c = true then some (valMSB s) else none

/-- The canonical decimal representation of a JavaScript bigint,
including the leading minus sign for negative values. -/
def bigintToString (i : Int) : JStr :=
  if i < 0 then '-' :: natToString10 i.natAbs else natToString10 i.toNat

/-- The model of the BigInt builtin applied to a canonical decimal
string: an optional sign followed by decimal digits. -/
def parseBigInt (s : JStr) : Option Int :=
  match s with
  | [] => none
  | c :: rest =>
    if c = '-' then (parseNatDigits rest).map (fun n => -(Int.ofNat n))
    else (parseNatDigits (c :: rest)).map (fun n => Int.ofNat n)

/-! ## Hexadecimal printing (Number toString with radix 16) -/

/-- Little-endian hexadecimal digits of a natural number, with fuel. -/
def toHexRevAux : Nat → Nat → JStr
  | 0, _ => []
  | fuel + 1, n => if n = 0 then [] else hexCharOf (n % 16) :: toHexRevAux fuel (n / 16)

/-- The lowercase hexadecimal representation of a natural number, as
produced by Number.prototype.toString with radix 16. -/
def natToString16 (n : Nat) : JStr :=
  if n = 0 then ['0'] else (toHexRevAux n n).reverse

/-- The model of String.prototype.padStart with target length two and pad
character zero. -/
def padStart2 (s : JStr) : JStr :=
  if s.length < 2 then List.replicate (2 - s.length) '0' ++ s else s

/-- The model of parseInt with radix 16: value of the longest prefix of
hexadecimal digits (the claims only apply it to all-hex strings). -/
def parseIntHex (s : JStr) : Nat :=
  (s.takeWhile isJsHexDigit).foldl (fun a c => 16 * a + jsHexVal c) 0

/-! ## Signature helpers (packages/proto/src/eip712.ts) -/

/-- The r, s, v components of a 65-byte signature, as returned by
splitSignature; v is a JavaScript number, r and s are hex strings. -/
structure SignatureComponents where
  v : Nat
  r : JStr
  s : JStr
deriving DecidableEq, Repr

/-- Embedding of splitSignature: strip the 0x prefix, r is the hex of the
first 32 bytes, s the hex of the next 32, v the parsed final byte. -/
def splitSignature (signature : JStr) : SignatureComponents :=
  let sig := signature.drop 2
  { v := parseIntHex ((sig.drop 128).take 2)
    r := '0' :: 'x' :: sig.take 64
    s := '0' :: 'x' :: (sig.drop 64).take 64 }

/-- Embedding of joinSignature: 0x, then r and s without their prefixes,
then v printed as two hexadecimal digits. -/
def joinSignature (components : SignatureComponents) : JStr :=
  '0' :: 'x' ::
    (components.r.drop 2 ++ (components.s.drop 2 ++ padStart2 (natToString16 components.v)))

/-- Embedding of validateSignature of eip712.ts. The TypeScript body is a
placeholder that only checks the lengths of the signature and of the
expected signer; it never recovers a signer and never reads the message
hash. The embedding reproduces exactly that computation. -/
def validateSignature (signature : JStr) (expectedSigner : JStr) (messageHash : JStr) : Bool :=
  signature.length == 132 && expectedSigner.length == 42

/-! ## Protocol data model (packages/proto) -/

/-- Error values thrown by the coordinator core. The constructor keeps
the TypeScript error class (ValidationError, ChannelError, plain Error)
and the message text. -/
inductive Err where
  | validation : String → Err
  | channel : String → Err
  | generic : String → Err
deriving DecidableEq, Repr

/-- Message of an error value, the model of error.message. -/
def Err.message : Err → String
  | .validation m => m
  | .channel m => m
  | .generic m => m

/-- A token balance entry: token address value and bigint amount. -/
structure TokenAmount where
  token : JStr
  amount : Int
deriving DecidableEq, Repr

/-- The ChannelState record of packages/proto: the address and id wrapper
objects are flattened to their value fields. -/
structure ChannelState where
  channelId : JStr
  nonce : Int
  trader : JStr
  lp : JStr
  traderBalances : List TokenAmount
  lpBalances : List TokenAmount
  timestamp : Int
  chainId : Int
deriving DecidableEq, Repr

/-- The ChannelParams record of packages/proto, flattened to values. -/
structure ChannelParams where
  trader : JStr
  lp : JStr
  tokenIn : JStr
  tokenOut : JStr
  traderDeposit : Int
  lpDeposit : Int
  chainId : Int
  timeout : Int
deriving DecidableEq, Repr

/-- Order side of a quote request. -/
inductive Side where
  | buy
  | sell
deriving DecidableEq, Repr

/-- The QuoteRequest message, flattened to values. -/
structure QuoteRequest where
  channelId : JStr
  nonce : Int
  side : Side
  baseToken : JStr
  quoteToken : JStr
  quantity : Int
  maxSlippageBps : Int
  timestamp : Int
  trader : JStr
deriving DecidableEq, Repr

/-- The Fill message, flattened to values. -/
structure Fill where
  channelId : JStr
  quoteId : JStr
  fillId : JStr
  nonce : Int
  quantity : Int
  price : Int
  timestamp : Int
  trader : JStr
  lp : JStr
deriving DecidableEq, Repr

/-- The Cancel message, flattened to values. -/
structure Cancel where
  channelId : JStr
  quoteId : JStr
  nonce : Int
  timestamp : Int
  trader : JStr
deriving DecidableEq, Repr

/-- The CheckpointRequest message, flattened to values. -/
structure CheckpointRequest where
  channelId : JStr
  state : ChannelState
  traderSignature : JStr
  lpSignature : JStr
deriving DecidableEq, Repr

/-- Validity of the address regex of createAddress: 0x followed by forty
characters from a-fA-F0-9. -/
def isAddressFormat (s : JStr) : Prop :=
  s.length = 42 ∧ s.take 2 = ['0', 'x'] ∧ ∀ c ∈ s.drop 2, isJsHexDigit c = true

instance (s : JStr) : Decidable (isAddressFormat s) := by
  unfold isAddressFormat; infer_instance

/-- The claim-side precondition of the round-trip claims: a 0x-prefixed
forty-digit lowercase hexadecimal address. -/
def isLowerAddr (s : JStr) : Prop :=
  s.length = 42 ∧ s.take 2 = ['0', 'x'] ∧ ∀ c ∈ s.drop 2, c ∈ lowerHexChars

instance (s : JStr) : Decidable (isLowerAddr s) := by
  unfold isLowerAddr; infer_instance

/-- Embedding of createAddress: validate the regex and lowercase the
value; on failure throw Invalid address format. -/
def createAddress (value : JStr) : Except Err JStr :=
  if isAddressFormat value then .ok (value.map toLowerChar)
  else .error (.generic ("Invalid address format: " ++ String.mk value))

/-- Embedding of createTokenAmount: build the validated address and pair
it with the amount. -/
def createTokenAmount (token : JStr) (amount : Int) : Except Err TokenAmount := do
  let a ← createAddress token
  .ok ⟨a, amount⟩

/-! ## Serialized channel state (ChannelManager serialize and deserialize) -/

/-- A serialized balance entry: token value and the amount printed as a
decimal string. -/
structure SerTokenAmount where
  token : JStr
  amount : JStr
deriving DecidableEq, Repr

/-- The persisted representation produced by serializeChannelState of
ChannelManager: bigint fields are printed as decimal strings, the chain
id stays a number. -/
structure SerChannelState where
  channelId : JStr
  nonce : JStr
  trader : JStr
  lp : JStr
  traderBalances : List SerTokenAmount
  lpBalances : List SerTokenAmount
  timestamp : JStr
  chainId : Int
deriving DecidableEq, Repr

/-- Embedding of serializeChannelState of ChannelManager.ts. -/
def serializeChannelState (state : ChannelState) : SerChannelState :=
  { channelId := state.channelId
    nonce := bigintToString state.nonce
    trader := state.trader
    lp := state.lp
    traderBalances := state.traderBalances.map (fun b => ⟨b.token, bigintToString b.amount⟩)
    lpBalances := state.lpBalances.map (fun b => ⟨b.token, bigintToString b.amount⟩)
    timestamp := bigintToString state.timestamp
    chainId := state.chainId }

/-- The BigInt builtin lifted to the exception monad: a malformed string
raises Cannot convert string to a BigInt. -/
def jsBigInt (s : JStr) : Except Err Int :=
  match parseBigInt s with
  | some i => .ok i
  | none => .error (.generic "Cannot convert string to a BigInt")

/-- The balance mapping step of deserializeChannelState: for each entry,
BigInt the amount and rebuild the token amount (first failure aborts the
whole map, as a thrown exception would). -/
def mapTokenAmounts : List SerTokenAmount → Except Err (List TokenAmount)
  | [] => .ok []
  | b :: rest => do
    let amt ← jsBigInt b.amount
    let ta ← createTokenAmount b.token amt
    let rest' ← mapTokenAmounts rest
    .ok (ta :: rest')

/-- Embedding of deserializeChannelState of ChannelManager.ts, in the
evaluation order of the TypeScript object literal. -/
def deserializeChannelState (doc : SerChannelState) : Except Err ChannelState := do
  let nonce ← jsBigInt doc.nonce
  let trader ← createAddress doc.trader
  let lp ← createAddress doc.lp
  let traderBalances ← mapTokenAmounts doc.traderBalances
  let lpBalances ← mapTokenAmounts doc.lpBalances
  let timestamp ← jsBigInt doc.timestamp
  .ok { channelId := doc.channelId, nonce := nonce, trader := trader, lp := lp,
        traderBalances := traderBalances, lpBalances := lpBalances,
        timestamp := timestamp, chainId := doc.chainId }

/-! ## The channel store and the state machine (ChannelManager) -/

/-- Status values written into the channels collection by
ChannelManager (the TIMEOUT and EXPIRED strings are written by the
timeout and cleanup paths). -/
inductive ChannelStatus where
  | opening
  | active
  | checkpointing
  | settling
  | closed
  | disputed
  | timedOutSt
  | expired
deriving DecidableEq, Repr

/-- One document of the channels collection: the channel state together
with the status field (the further bookkeeping fields the code writes,
such as updatedAt or lastMessageType, do not feed back into any
validation and are omitted). -/
structure ChannelDoc where
  state : ChannelState
  status : ChannelStatus
deriving DecidableEq, Repr

/-- The unified store: database, Redis and in-memory cache collapsed to
one association list keyed by channel id. -/
abbrev Store := List (JStr × ChannelDoc)

/-- Lookup of a channel document by id. -/
def findDoc : Store → JStr → Option ChannelDoc
  | [], _ => none
  | (k, d) :: rest, cid => if k = cid then some d else findDoc rest cid

/-- Embedding of getChannelState: the stored state of the channel,
found without any filter on the status field. -/
def getChannelState (store : Store) (channelId : JStr) : Option ChannelState :=
  (findDoc store channelId).map (fun d => d.state)

/-- Update the document of one channel in place (the updateOne operation
of the channels collection: existing documents are rewritten, nothing is
inserted). -/
def mapDoc : Store → JStr → (ChannelDoc → ChannelDoc) → Store
  | [], _, _ => []
  | (k, d) :: rest, cid, f => (k, if k = cid then f d else d) :: mapDoc rest cid f

/-- Write the state fields of an existing channel document, leaving the
status untouched, as the update document of updateChannelState does. -/
def setChannelState (store : Store) (cid : JStr) (st : ChannelState) : Store :=
  mapDoc store cid (fun d => { d with state := st })

/-- Write the status field of an existing channel document. -/
def setChannelStatus (store : Store) (cid : JStr) (status : ChannelStatus) : Store :=
  mapDoc store cid (fun d => { d with status := status })

/-- Embedding of validateChannelParams: same-address, nonpositive
deposit and short timeout checks, in source order (the configured floor
is CHANNEL_TIMEOUT_MS divided by 1000, that is 3600 seconds). -/
def validateChannelParams (params : ChannelParams) : Except Err Unit :=
  if params.trader = params.lp then
    .error (.validation "Trader and LP cannot be the same address")
  else if params.traderDeposit ≤ 0 ∨ params.lpDeposit ≤ 0 then
    .error (.validation "Deposits must be positive")
  else if params.timeout < 3600 then
    .error (.validation "Timeout too short")
  else .ok ()

/-- The body of createChannel before its catch-all handler: validate the
parameters and build the initial state (nonce zero, one balance entry
per side holding the respective deposit). The generated channel id and
the current time are passed in, standing for createChannelId and
getCurrentTimestamp. -/
def createChannelInner (cid : JStr) (now : Int) (params : ChannelParams) :
    Except Err ChannelState := do
  validateChannelParams params
  let tIn ← createTokenAmount params.tokenIn params.traderDeposit
  let tOut ← createTokenAmount params.tokenOut params.lpDeposit
  .ok { channelId := cid, nonce := 0, trader := params.trader, lp := params.lp,
        traderBalances := [tIn], lpBalances := [tOut], timestamp := now,
        chainId := params.chainId }

/-- Embedding of createChannel: any error of the body is rethrown as a
ChannelError with a Failed to create channel prefix, as the catch block
does. -/
def createChannel (cid : JStr) (now : Int) (params : ChannelParams) :
    Except Err (JStr × ChannelState) :=
  match createChannelInner cid now params with
  | .ok initialState => .ok (cid, initialState)
  | .error e => .error (.channel ("Failed to create channel: " ++ e.message))

/-- Insert the freshly created channel document, status ACTIVE, into the
store (insertOne plus the cache and Redis writes). -/
def insertChannel (store : Store) (cid : JStr) (initialState : ChannelState) : Store :=
  (cid, ⟨initialState, .active⟩) :: store

/-- Embedding of validateStateTransition: nonce progression, channel id
consistency, participants consistency, timestamp progression, in source
order. The message type argument is accepted and ignored exactly as in
the source. -/
def validateStateTransition (currentState newState : ChannelState) (messageType : String) :
    Except Err Unit :=
  if newState.nonce ≤ currentState.nonce then
    .error (.validation "New nonce must be greater than current nonce")
  else if newState.channelId ≠ currentState.channelId then
    .error (.validation "Channel ID mismatch")
  else if newState.trader ≠ currentState.trader ∨ newState.lp ≠ currentState.lp then
    .error (.validation "Participants cannot change")
  else if newState.timestamp ≤ currentState.timestamp then
    .error (.validation "New timestamp must be greater than current timestamp")
  else .ok ()

/-- Embedding of updateChannelState: fetch the current state, validate
the transition, then write the new state; a validation failure aborts
before any write. -/
def updateChannelState (store : Store) (channelId : JStr) (newState : ChannelState)
    (messageType : String) : Except Err Store :=
  match getChannelState store channelId with
  | none => .error (.channel ("Channel " ++ String.mk channelId ++ " not found"))
  | some currentState =>
    match validateStateTransition currentState newState messageType with
    | .error e => .error e
    | .ok _ => .ok (setChannelState store channelId newState)

/-- Embedding of validateQuoteRequest: trader match, positive quantity,
slippage bounded by MAX_SLIPPAGE_BPS = 1000. -/
def validateQuoteRequest (request : QuoteRequest) (currentState : ChannelState) :
    Except Err Unit :=
  if request.trader ≠ currentState.trader then
    .error (.validation "Quote request must come from channel trader")
  else if request.quantity ≤ 0 then
    .error (.validation "Quote quantity must be positive")
  else if request.maxSlippageBps > 1000 then
    .error (.validation "Max slippage too high")
  else .ok ()

/-- Embedding of processQuoteRequest: fetch, validate, then apply a new
state that copies the current one and advances nonce and timestamp. -/
def processQuoteRequest (store : Store) (request : QuoteRequest) : Except Err Store :=
  match getChannelState store request.channelId with
  | none => .error (.channel ("Channel " ++ String.mk request.channelId ++ " not found"))
  | some currentState =>
    match validateQuoteRequest request currentState with
    | .error e => .error e
    | .ok _ =>
      updateChannelState store request.channelId
        { currentState with nonce := request.nonce, timestamp := request.timestamp }
        "QUOTE_REQUEST"

/-- The caller-observable effect of processQuoteRequest: on a thrown
error the store is left exactly as it was. -/
def runQuoteRequest (store : Store) (request : QuoteRequest) : Store :=
  match processQuoteRequest store request with
  | .ok store' => store'
  | .error _ => store

/-- Embedding of validateFill: positive quantity and price, participant
match. -/
def validateFill (fill : Fill) (currentState : ChannelState) : Except Err Unit :=
  if fill.quantity ≤ 0 ∨ fill.price ≤ 0 then
    .error (.validation "Fill quantity and price must be positive")
  else if fill.trader ≠ currentState.trader ∨ fill.lp ≠ currentState.lp then
    .error (.validation "Fill participants must match channel participants")
  else .ok ()

/-- Embedding of calculatePostFillState: the source copies the current
state and advances only nonce and timestamp; the balance update is left
as a comment in the source and no balance field is touched. -/
def calculatePostFillState (currentState : ChannelState) (fill : Fill) : ChannelState :=
  { currentState with nonce := fill.nonce, timestamp := fill.timestamp }

/-- Embedding of processFill: fetch, validate, compute the post-fill
state and apply it; returns the new state as the source does. -/
def processFill (store : Store) (fill : Fill) : Except Err (ChannelState × Store) :=
  match getChannelState store fill.channelId with
  | none => .error (.channel ("Channel " ++ String.mk fill.channelId ++ " not found"))
  | some currentState =>
    match validateFill fill currentState with
    | .error e => .error e
    | .ok _ =>
      let newState := calculatePostFillState currentState fill
      match updateChannelState store fill.channelId newState "FILL" with
      | .error e => .error e
      | .ok store' => .ok (newState, store')

/-- Embedding of validateCancel: the cancel must come from the channel
trader. -/
def validateCancel (cancel : Cancel) (currentState : ChannelState) : Except Err Unit :=
  if cancel.trader ≠ currentState.trader then
    .error (.validation "Cancel must come from channel trader")
  else .ok ()

/-- Embedding of processCancel: fetch, validate, then apply a new state
that advances nonce and timestamp (the quote-status bookkeeping write is
outside the channel store and is omitted). -/
def processCancel (store : Store) (cancel : Cancel) : Except Err Store :=
  match getChannelState store cancel.channelId with
  | none => .error (.channel ("Channel " ++ String.mk cancel.channelId ++ " not found"))
  | some currentState =>
    match validateCancel cancel currentState with
    | .error e => .error e
    | .ok _ =>
      updateChannelState store cancel.channelId
        { currentState with nonce := cancel.nonce, timestamp := cancel.timestamp }
        "CANCEL"

/-- Embedding of validateCheckpointRequest: the checkpoint nonce must be
strictly greater than the current nonce, and the channel ids must
match. -/
def validateCheckpointRequest (request : CheckpointRequest) (currentState : ChannelState) :
    Except Err Unit :=
  if request.state.nonce ≤ currentState.nonce then
    .error (.validation "Checkpoint nonce must be greater than current nonce")
  else if request.state.channelId ≠ currentState.channelId then
    .error (.validation "Channel ID mismatch in checkpoint")
  else .ok ()

/-- One document of the checkpoints collection (the keccak state hash is
computed by an external library and is not modelled; the serialized
state the code stores alongside it is kept). -/
structure CheckpointRecord where
  channelId : JStr
  nonce : Int
  state : SerChannelState
  traderSignature : JStr
  lpSignature : JStr
deriving DecidableEq, Repr

/-- Embedding of createCheckpoint: fetch, validate, set the channel
status to CHECKPOINTING and record the checkpoint document. -/
def createCheckpoint (store : Store) (request : CheckpointRequest) :
    Except Err (Store × CheckpointRecord) :=
  match getChannelState store request.channelId with
  | none => .error (.channel ("Channel " ++ String.mk request.channelId ++ " not found"))
  | some currentState =>
    match validateCheckpointRequest request currentState with
    | .error e => .error e
    | .ok _ =>
      .ok (setChannelStatus store request.channelId .checkpointing,
           { channelId := request.channelId, nonce := request.state.nonce,
             state := serializeChannelState request.state,
             traderSignature := request.traderSignature,
             lpSignature := request.lpSignature })

/-- Embedding of handleChannelTimeout: the channel document is marked
with the TIMEOUT status (and evicted from the cache; the store is the
collapsed view, where the document keeps its state fields). -/
def handleChannelTimeout (store : Store) (channelId : JStr) : Store :=
  setChannelStatus store channelId .timedOutSt

/-! ## Reachability and conservation -/

/-- Sum of the balance amounts recorded for one token. -/
def sumToken (tok : JStr) : List TokenAmount → Int
  | [] => 0
  | b :: rest => (if b.token = tok then b.amount else 0) + sumToken tok rest

/-- Total holding of one token across both participants of a state. -/
def tokenTotal (st : ChannelState) (tok : JStr) : Int :=
  sumToken tok st.traderBalances + sumToken tok st.lpBalances

/-- The sum of the initial deposits recorded for one token at channel
creation (token addresses are stored lowercased by createTokenAmount). -/
def initialDepositTotal (params : ChannelParams) (tok : JStr) : Int :=
  (if params.tokenIn.map toLowerChar = tok then params.traderDeposit else 0) +
    (if params.tokenOut.map toLowerChar = tok then params.lpDeposit else 0)

/-- Stores reachable from a starting store by accepted coordinator
operations: quote requests, fills, cancels, checkpoints and timeout
marking. -/
inductive Reaches : Store → Store → Prop where
  | refl (s : Store) : Reaches s s
  | quote {s t u : Store} {req : QuoteRequest} :
      Reaches s t → processQuoteRequest t req = .ok u → Reaches s u
  | fill {s t u : Store} {st : ChannelState} {f : Fill} :
      Reaches s t → processFill t f = .ok (st, u) → Reaches s u
  | cancel {s t u : Store} {c : Cancel} :
      Reaches s t → processCancel t c = .ok u → Reaches s u
  | checkpoint {s t u : Store} {ck : CheckpointRecord} {req : CheckpointRequest} :
      Reaches s t → createCheckpoint t req = .ok (u, ck) → Reaches s u
  | timedOut {s t : Store} (cid : JStr) :
      Reaches s t → Reaches s (handleChannelTimeout t cid)

/-! ## Concrete example values used by witnesses and counterexamples -/

/-- Example trader address (lowercase, valid format). -/
def addrA : JStr := "0xaaaaaaaaaaaaaaaaaaaaaaaaaaaaaaaaaaaaaaaa".data

/-- Example LP address (lowercase, valid format). -/
def addrB : JStr := "0xbbbbbbbbbbbbbbbbbbbbbbbbbbbbbbbbbbbbbbbb".data

/-- Example third-party address, not a channel participant. -/
def addrC : JStr := "0xcccccccccccccccccccccccccccccccccccccccc".data

/-- Example quote-token address (a USDC stand-in). -/
def tokU : JStr := "0x1111111111111111111111111111111111111111".data

/-- Example base-token address (a WETH stand-in). -/
def tokW : JStr := "0x2222222222222222222222222222222222222222".data

/-- Example channel id. -/
def cidEx : JStr := "11111111-2222-4333-8444-555555555555".data

/-- Example 65-byte signature: 0x then 130 lowercase hex digits. -/
def sigEx : JStr :=
  "0xaaaaaaaaaaaaaaaaaaaaaaaaaaaaaaaaaaaaaaaaaaaaaaaaaaaaaaaaaaaaaaaabbbbbbbbbbbbbbbbbbbbbbbbbbbbbbbbbbbbbbbbbbbbbbbbbbbbbbbbbbbbbbbb1b".data

/-- Example channel state used by the state-machine witnesses. -/
def stEx : ChannelState :=
  { channelId := cidEx, nonce := 2, trader := addrA, lp := addrB,
    traderBalances := [⟨tokU, 1⟩], lpBalances := [⟨tokW, 5⟩],
    timestamp := 1000, chainId := 137 }

/-- Example store holding the example channel with status ACTIVE. -/
def storeEx : Store := [(cidEx, ⟨stEx, .active⟩)]

/-- Example message hash for the signature claims. -/
def hashEx1 : JStr := "0x0101".data

/-- A second, different message hash. -/
def hashEx2 : JStr := "0x0202".data

/-- A state advancing the example channel to nonce 3. -/
def stGood : ChannelState := { stEx with nonce := 3, timestamp := 1001 }

/-- A state reusing the current nonce 2 of the example channel. -/
def stStale : ChannelState := { stEx with nonce := 2, timestamp := 1001 }

/-- A replayed quote request claiming the already-used nonce 2. -/
def reqStale : QuoteRequest :=
  { channelId := cidEx, nonce := 2, side := .buy, baseToken := tokW, quoteToken := tokU,
    quantity := 1, maxSlippageBps := 50, timestamp := 1001, trader := addrA }

/-- A fresh quote request at nonce 3. -/
def reqNext : QuoteRequest := { reqStale with nonce := 3 }

/-- The example fill at nonce 3: quantity 3 at price 2 times 10 to the 18. -/
def fillEx : Fill :=
  { channelId := cidEx, quoteId := "q1".data, fillId := "f1".data, nonce := 3,
    quantity := 3, price := 2000000000000000000, timestamp := 1001,
    trader := addrA, lp := addrB }

/-- A checkpoint request carrying the current dual-signed state (nonce 2). -/
def ckReqEx : CheckpointRequest :=
  { channelId := cidEx, state := stEx, traderSignature := sigEx, lpSignature := sigEx }

/-- Example channel parameters satisfying every precondition of open. -/
def pEx : ChannelParams :=
  { trader := addrA, lp := addrB, tokenIn := tokU, tokenOut := tokW,
    traderDeposit := 9, lpDeposit := 4, chainId := 137, timeout := 3600 }

/-- Parameters with identical trader and LP. -/
def pSame : ChannelParams := { pEx with lp := addrA }

/-- Parameters with a zero trader deposit. -/
def pZeroDep : ChannelParams := { pEx with traderDeposit := 0 }

/-- Parameters with a timeout below the configured floor. -/
def pShort : ChannelParams := { pEx with timeout := 60 }

/-- The initial state created from the example parameters. -/
def initEx : ChannelState :=
  { channelId := cidEx, nonce := 0, trader := addrA, lp := addrB,
    traderBalances := [⟨tokU, 9⟩], lpBalances := [⟨tokW, 4⟩],
    timestamp := 500, chainId := 137 }

/-- The store right after creating the example channel. -/
def s0Ex : Store := insertChannel [] cidEx initEx

/-- A quote request accepted on the freshly created channel. -/
def reqC5 : QuoteRequest :=
  { channelId := cidEx, nonce := 1, side := .buy, baseToken := tokW, quoteToken := tokU,
    quantity := 1, maxSlippageBps := 50, timestamp := 501, trader := addrA }

/-- The state after that quote request. -/
def st1Ex : ChannelState := { initEx with nonce := 1, timestamp := 501 }

/-- The store after that quote request. -/
def s1Ex : Store := setChannelState s0Ex cidEx st1Ex

/-! ## Lemmas: decimal codec -/

theorem digitChar_spec : ∀ d : Fin 10,
    isDigitChar (digitChar d.val) = true ∧ charDigitVal (digitChar d.val) = d.val := by
  decide

theorem valMSB_reverse (L : JStr) : valMSB L.reverse = valLE L := by
  induction L with
  | nil => rfl
  | cons x L ih =>
    unfold valMSB valLE at *
    rw [List.reverse_cons, List.foldl_append]
    simp only [List.foldl, List.foldr]
    rw [ih]
    omega

theorem tdra_all (fuel : Nat) : ∀ n c, c ∈ toDigitsRevAux fuel n → isDigitChar c = true := by
  induction fuel with
  | zero => intro n c h; simp [toDigitsRevAux] at h
  | succ f ih =>
    intro n c h
    rw [toDigitsRevAux] at h
    by_cases hn : n = 0
    · simp [hn] at h
    · rw [if_neg hn] at h
      rcases List.mem_cons.mp h with h1 | h2
      · rw [h1]
        exact (digitChar_spec ⟨n % 10, Nat.mod_lt _ (by omega)⟩).1
      · exact ih _ _ h2

theorem tdra_val (fuel : Nat) : ∀ n, n ≤ fuel → valLE (toDigitsRevAux fuel n) = n := by
  induction fuel with
  | zero =>
    intro n h
    interval_cases n
    rfl
  | succ f ih =>
    intro n h
    rw [toDigitsRevAux]
    by_cases hn : n = 0
    · rw [if_pos hn, hn]; rfl
    · rw [if_neg hn]
      have h10 : n % 10 < 10 := Nat.mod_lt _ (by omega)
      have hd : charDigitVal (digitChar (n % 10)) = n % 10 := (digitChar_spec ⟨n % 10, h10⟩).2
      have hrec := ih (n / 10) (by omega)
      show charDigitVal (digitChar (n % 10)) + 10 * valLE (toDigitsRevAux f (n / 10)) = n
      rw [hd, hrec]
      omega

theorem natToString10_all (n : Nat) : ∀ c ∈ natToString10 n, isDigitChar c = true := by
  intro c h
  unfold natToString10 at h
  by_cases hn : n = 0
  · rw [if_pos hn] at h
    have : c = '0' := by simpa using h
    rw [this]; decide
  · rw [if_neg hn] at h
    exact tdra_all n n c (List.mem_reverse.mp h)

theorem natToString10_ne_nil (n : Nat) : natToString10 n ≠ [] := by
  unfold natToString10
  by_cases hn : n = 0
  · rw [if_pos hn]; simp
  · rw [if_neg hn]
    intro hcontra
    have hval := tdra_val n n le_rfl
    rw [List.reverse_eq_nil_iff.mp hcontra] at hval
    exact hn hval.symm

theorem natToString10_val (n : Nat) : valMSB (natToString10 n) = n := by
  unfold natToString10
  by_cases hn : n = 0
  · rw [if_pos hn, hn]; decide
  · rw [if_neg hn, valMSB_reverse, tdra_val n n le_rfl]

theorem parseNatDigits_natToString10 (n : Nat) : parseNatDigits (natToString10 n) = some n := by
  unfold parseNatDigits
  rw [if_pos ⟨natToString10_ne_nil n, natToString10_all n⟩, natToString10_val]

theorem parseBigInt_cons (c : Char) (rest : JStr) :
    parseBigInt (c :: rest) =
      if c = '-' then (parseNatDigits rest).map (fun n => -(Int.ofNat n))
      else (parseNatDigits (c :: rest)).map (fun n => Int.ofNat n) := rfl

theorem parseBigInt_bigintToString (i : Int) : parseBigInt (bigintToString i) = some i := by
  unfold bigintToString
  by_cases hneg : i < 0
  · rw [if_pos hneg]
    rw [parseBigInt_cons, if_pos rfl, parseNatDigits_natToString10]
    show some (-(Int.ofNat i.natAbs)) = some i
    congr 1
    simp only [Int.ofNat_eq_coe]
    omega
  · rw [if_neg hneg]
    have hne := natToString10_ne_nil i.toNat
    obtain ⟨c, rest, hcr⟩ : ∃ c rest, natToString10 i.toNat = c :: rest := by
      cases h : natToString10 i.toNat with
      | nil => exact absurd h hne
      | cons c rest => exact ⟨c, rest, rfl⟩
    have hcdigit : isDigitChar c = true :=
      natToString10_all i.toNat c (by rw [hcr]; exact List.mem_cons_self _ _)
    have hcne : c ≠ '-' := by
      intro hcontra
      rw [hcontra] at hcdigit
      exact absurd hcdigit (by decide)
    rw [hcr, parseBigInt_cons, if_neg hcne, ← hcr, parseNatDigits_natToString10]
    show some (Int.ofNat i.toNat) = some i
    congr 1
    simp only [Int.ofNat_eq_coe]
    omega

/-! ## Lemmas: lowercase hexadecimal characters -/

theorem lowerHex_isJsHexDigit : ∀ c ∈ lowerHexChars, isJsHexDigit c = true := by decide

theorem lowerHex_toLower : ∀ c ∈ lowerHexChars, toLowerChar c = c := by decide

theorem lowerHex_val_lt : ∀ c ∈ lowerHexChars, jsHexVal c < 16 := by decide

theorem hexCharOf_jsHexVal : ∀ c ∈ lowerHexChars, hexCharOf (jsHexVal c) = c := by decide

theorem map_id_of_forall {f : Char → Char} :
    ∀ l : JStr, (∀ c ∈ l, f c = c) → l.map f = l := by
  intro l h
  induction l with
  | nil => rfl
  | cons x xs ih =>
    simp only [List.map_cons]
    rw [h x (List.mem_cons_self x xs), ih (fun c hc => h c (List.mem_cons_of_mem _ hc))]

theorem isLowerAddr_toLower {s : JStr} (h : isLowerAddr s) : s.map toLowerChar = s := by
  obtain ⟨hlen, hpre, hhex⟩ := h
  apply map_id_of_forall
  intro c hc
  rw [← List.take_append_drop 2 s] at hc
  rcases List.mem_append.mp hc with h1 | h2
  · rw [hpre] at h1
    rcases List.mem_cons.mp h1 with h3 | h3
    · rw [h3]; decide
    · have : c = 'x' := by simpa using h3
      rw [this]; decide
  · exact lowerHex_toLower c (hhex c h2)

theorem createAddress_lower {s : JStr} (h : isLowerAddr s) : createAddress s = .ok s := by
  have hfmt : isAddressFormat s :=
    ⟨h.1, h.2.1, fun c hc => lowerHex_isJsHexDigit c (h.2.2 c hc)⟩
  unfold createAddress
  rw [if_pos hfmt, isLowerAddr_toLower ⟨h.1, h.2.1, h.2.2⟩]

/-! ## Lemmas: hexadecimal codec -/

theorem hexPair : ∀ a b : Fin 16,
    padStart2 (natToString16 (16 * a.val + b.val)) = [hexCharOf a.val, hexCharOf b.val] := by
  decide

theorem parseIntHex_pair {c1 c2 : Char} (h1 : isJsHexDigit c1 = true)
    (h2 : isJsHexDigit c2 = true) :
    parseIntHex [c1, c2] = 16 * jsHexVal c1 + jsHexVal c2 := by
  unfold parseIntHex
  rw [List.takeWhile_cons_of_pos h1, List.takeWhile_cons_of_pos h2]
  simp only [List.takeWhile_nil, List.foldl_cons, List.foldl_nil]
  omega

/-! ## Lemmas: Except plumbing -/

theorem exBind_ok {α β : Type} (a : α) (f : α → Except Err β) :
    (Except.ok a >>= f : Except Err β) = f a := rfl

theorem exBind_error {α β : Type} (e : Err) (f : α → Except Err β) :
    (Except.error e >>= f : Except Err β) = Except.error e := rfl

/-! ## Lemmas: serialized channel state round-trip -/

theorem jsBigInt_bigintToString (i : Int) : jsBigInt (bigintToString i) = .ok i := by
  unfold jsBigInt
  rw [parseBigInt_bigintToString]

theorem createTokenAmount_lower {t : JStr} (h : isLowerAddr t) (amt : Int) :
    createTokenAmount t amt = .ok ⟨t, amt⟩ := by
  unfold createTokenAmount
  rw [createAddress_lower h]
  rfl

theorem mapTokenAmounts_serialize (bs : List TokenAmount)
    (h : ∀ b ∈ bs, isLowerAddr b.token) :
    mapTokenAmounts (bs.map (fun b => ⟨b.token, bigintToString b.amount⟩)) = .ok bs := by
  induction bs with
  | nil => rfl
  | cons b rest ih =>
    have hb : isLowerAddr b.token := h b (List.mem_cons_self _ _)
    have hr : ∀ x ∈ rest, isLowerAddr x.token := fun x hx => h x (List.mem_cons_of_mem _ hx)
    simp only [List.map_cons, mapTokenAmounts, jsBigInt_bigintToString, exBind_ok,
      createTokenAmount_lower hb, ih hr]

theorem splitSignature_r (sig : JStr) :
    (splitSignature sig).r = '0' :: 'x' :: (sig.drop 2).take 64 := rfl

theorem splitSignature_s (sig : JStr) :
    (splitSignature sig).s = '0' :: 'x' :: ((sig.drop 2).drop 64).take 64 := rfl

theorem splitSignature_v (sig : JStr) :
    (splitSignature sig).v = parseIntHex (((sig.drop 2).drop 128).take 2) := rfl

/-! ## Lemmas: store lookups -/

theorem findDoc_mapDoc (store : Store) (cid : JStr) (f : ChannelDoc → ChannelDoc)
    (cid' : JStr) :
    findDoc (mapDoc store cid f) cid' =
      if cid' = cid then (findDoc store cid).map f else findDoc store cid' := by
  induction store with
  | nil =>
    simp only [mapDoc, findDoc]
    split <;> rfl
  | cons p rest ih =>
    obtain ⟨k, d⟩ := p
    simp only [mapDoc, findDoc]
    by_cases hk : k = cid
    · subst hk
      by_cases hc : k = cid'
      · subst hc
        simp
      · have hcs : ¬(cid' = k) := fun h => hc h.symm
        simp [hc, hcs, ih]
    · by_cases hc : k = cid'
      · subst hc
        simp [hk]
      · simp [hk, hc, ih]

theorem getChannelState_set (store : Store) (cid : JStr) (st : ChannelState) (cid' : JStr) :
    getChannelState (setChannelState store cid st) cid' =
      if cid' = cid then (getChannelState store cid).map (fun _ => st)
      else getChannelState store cid' := by
  unfold getChannelState setChannelState
  rw [findDoc_mapDoc]
  by_cases hc : cid' = cid
  · rw [if_pos hc, if_pos hc, Option.map_map, Option.map_map]
    rfl
  · rw [if_neg hc, if_neg hc]

theorem getChannelState_setStatus (store : Store) (cid : JStr) (status : ChannelStatus)
    (cid' : JStr) :
    getChannelState (setChannelStatus store cid status) cid' = getChannelState store cid' := by
  unfold getChannelState setChannelStatus
  rw [findDoc_mapDoc]
  by_cases hc : cid' = cid
  · rw [if_pos hc, hc, Option.map_map]
    rfl
  · rw [if_neg hc]

/-! ## Lemmas: state transition validation -/

theorem validateStateTransition_ok {cur new : ChannelState} {mt : String}
    (h : validateStateTransition cur new mt = .ok ()) :
    cur.nonce < new.nonce ∧ new.channelId = cur.channelId ∧
      new.trader = cur.trader ∧ new.lp = cur.lp ∧ cur.timestamp < new.timestamp := by
  unfold validateStateTransition at h
  by_cases h1 : new.nonce ≤ cur.nonce
  · rw [if_pos h1] at h; exact Except.noConfusion h
  rw [if_neg h1] at h
  by_cases h2 : new.channelId ≠ cur.channelId
  · rw [if_pos h2] at h; exact Except.noConfusion h
  rw [if_neg h2] at h
  by_cases h3 : new.trader ≠ cur.trader ∨ new.lp ≠ cur.lp
  · rw [if_pos h3] at h; exact Except.noConfusion h
  rw [if_neg h3] at h
  by_cases h4 : new.timestamp ≤ cur.timestamp
  · rw [if_pos h4] at h; exact Except.noConfusion h
  push_neg at h2 h3
  exact ⟨by omega, h2, h3.1, h3.2, by omega⟩

theorem validateStateTransition_stale {cur new : ChannelState} (mt : String)
    (h : new.nonce ≤ cur.nonce) :
    validateStateTransition cur new mt =
      .error (.validation "New nonce must be greater than current nonce") := by
  unfold validateStateTransition
  rw [if_pos h]

theorem updateChannelState_ok {store store' : Store} {cid : JStr} {new : ChannelState}
    {mt : String} (h : updateChannelState store cid new mt = .ok store') :
    ∃ cur, getChannelState store cid = some cur ∧
      validateStateTransition cur new mt = .ok () ∧
      store' = setChannelState store cid new := by
  unfold updateChannelState at h
  cases hg : getChannelState store cid with
  | none => simp only [hg] at h; exact Except.noConfusion h
  | some cur =>
    simp only [hg] at h
    cases hv : validateStateTransition cur new mt with
    | error e => simp only [hv] at h; exact Except.noConfusion h
    | ok u =>
      cases u
      simp only [hv] at h
      injection h with h'
      exact ⟨cur, rfl, hv, h'.symm⟩

/-! ## Lemmas: accepted operations preserve balances -/

theorem processQuoteRequest_ok_lookup {store store' : Store} {req : QuoteRequest}
    (h : processQuoteRequest store req = .ok store') (cid : JStr) (st' : ChannelState)
    (h' : getChannelState store' cid = some st') :
    ∃ st, getChannelState store cid = some st ∧
      st'.traderBalances = st.traderBalances ∧ st'.lpBalances = st.lpBalances := by
  unfold processQuoteRequest at h
  cases hg : getChannelState store req.channelId with
  | none => simp only [hg] at h; exact Except.noConfusion h
  | some cur =>
    simp only [hg] at h
    cases hv : validateQuoteRequest req cur with
    | error e => simp only [hv] at h; exact Except.noConfusion h
    | ok u =>
      cases u
      simp only [hv] at h
      obtain ⟨cur', hcur', _, hset⟩ := updateChannelState_ok h
      subst hset
      rw [getChannelState_set] at h'
      by_cases hc : cid = req.channelId
      · rw [if_pos hc, hg] at h'
        simp only [Option.map_some', Option.some.injEq] at h'
        exact ⟨cur, by rw [hc]; exact hg, by rw [← h'], by rw [← h']⟩
      · rw [if_neg hc] at h'
        exact ⟨st', h', rfl, rfl⟩

theorem processFill_ok_lookup {store store' : Store} {st0 : ChannelState} {f : Fill}
    (h : processFill store f = .ok (st0, store')) (cid : JStr) (st' : ChannelState)
    (h' : getChannelState store' cid = some st') :
    ∃ st, getChannelState store cid = some st ∧
      st'.traderBalances = st.traderBalances ∧ st'.lpBalances = st.lpBalances := by
  unfold processFill at h
  cases hg : getChannelState store f.channelId with
  | none => simp only [hg] at h; exact Except.noConfusion h
  | some cur =>
    simp only [hg] at h
    cases hv : validateFill f cur with
    | error e => simp only [hv] at h; exact Except.noConfusion h
    | ok u =>
      cases u
      simp only [hv] at h
      cases hu : updateChannelState store f.channelId (calculatePostFillState cur f) "FILL" with
      | error e => simp only [hu] at h; exact Except.noConfusion h
      | ok s2 =>
        simp only [hu] at h
        injection h with h1
        injection h1 with ha hb
        subst hb
        obtain ⟨cur', hcur', hvt, hset⟩ := updateChannelState_ok hu
        subst hset
        rw [getChannelState_set] at h'
        by_cases hc : cid = f.channelId
        · rw [if_pos hc, hg] at h'
          simp only [Option.map_some', Option.some.injEq] at h'
          subst h'
          exact ⟨cur, by rw [hc]; exact hg, by simp [calculatePostFillState],
            by simp [calculatePostFillState]⟩
        · rw [if_neg hc] at h'
          exact ⟨st', h', rfl, rfl⟩

theorem processCancel_ok_lookup {store store' : Store} {c : Cancel}
    (h : processCancel store c = .ok store') (cid : JStr) (st' : ChannelState)
    (h' : getChannelState store' cid = some st') :
    ∃ st, getChannelState store cid = some st ∧
      st'.traderBalances = st.traderBalances ∧ st'.lpBalances = st.lpBalances := by
  unfold processCancel at h
  cases hg : getChannelState store c.channelId with
  | none => simp only [hg] at h; exact Except.noConfusion h
  | some cur =>
    simp only [hg] at h
    cases hv : validateCancel c cur with
    | error e => simp only [hv] at h; exact Except.noConfusion h
    | ok u =>
      cases u
      simp only [hv] at h
      obtain ⟨cur', hcur', hvt, hset⟩ := updateChannelState_ok h
      subst hset
      rw [getChannelState_set] at h'
      by_cases hc : cid = c.channelId
      · rw [if_pos hc, hg] at h'
        simp only [Option.map_some', Option.some.injEq] at h'
        exact ⟨cur, by rw [hc]; exact hg, by rw [← h'], by rw [← h']⟩
      · rw [if_neg hc] at h'
        exact ⟨st', h', rfl, rfl⟩

theorem createCheckpoint_ok_lookup {store store' : Store} {ck : CheckpointRecord}
    {req : CheckpointRequest} (h : createCheckpoint store req = .ok (store', ck))
    (cid : JStr) (st' : ChannelState) (h' : getChannelState store' cid = some st') :
    getChannelState store cid = some st' := by
  unfold createCheckpoint at h
  cases hg : getChannelState store req.channelId with
  | none => simp only [hg] at h; exact Except.noConfusion h
  | some cur =>
    simp only [hg] at h
    cases hv : validateCheckpointRequest req cur with
    | error e => simp only [hv] at h; exact Except.noConfusion h
    | ok u =>
      cases u
      simp only [hv] at h
      injection h with h1
      injection h1 with ha hb
      rw [← ha, getChannelState_setStatus] at h'
      exact h'

theorem reaches_balances {s t : Store} (h : Reaches s t) (cid : JStr) :
    ∀ st', getChannelState t cid = some st' →
      ∃ st, getChannelState s cid = some st ∧
        st'.traderBalances = st.traderBalances ∧ st'.lpBalances = st.lpBalances := by
  induction h with
  | refl => exact fun st' h' => ⟨st', h', rfl, rfl⟩
  | quote hr hok ih =>
    intro st' h'
    obtain ⟨stm, hm, e1, e2⟩ := processQuoteRequest_ok_lookup hok cid st' h'
    obtain ⟨st0, h0, e3, e4⟩ := ih stm hm
    exact ⟨st0, h0, by rw [e1, e3], by rw [e2, e4]⟩
  | fill hr hok ih =>
    intro st' h'
    obtain ⟨stm, hm, e1, e2⟩ := processFill_ok_lookup hok cid st' h'
    obtain ⟨st0, h0, e3, e4⟩ := ih stm hm
    exact ⟨st0, h0, by rw [e1, e3], by rw [e2, e4]⟩
  | cancel hr hok ih =>
    intro st' h'
    obtain ⟨stm, hm, e1, e2⟩ := processCancel_ok_lookup hok cid st' h'
    obtain ⟨st0, h0, e3, e4⟩ := ih stm hm
    exact ⟨st0, h0, by rw [e1, e3], by rw [e2, e4]⟩
  | checkpoint hr hok ih =>
    intro st' h'
    exact ih st' (createCheckpoint_ok_lookup hok cid st' h')
  | timedOut cid' hr ih =>
    intro st' h'
    simp only [handleChannelTimeout, getChannelState_setStatus] at h'
    exact ih st' h'

/-! ## Lemmas: channel creation -/

theorem createTokenAmount_ok {tok : JStr} {amt : Int} {ta : TokenAmount}
    (h : createTokenAmount tok amt = .ok ta) : ta = ⟨tok.map toLowerChar, amt⟩ := by
  unfold createTokenAmount createAddress at h
  by_cases hf : isAddressFormat tok
  · rw [if_pos hf] at h
    simp only [exBind_ok] at h
    injection h with h'
    exact h'.symm
  · rw [if_neg hf] at h
    simp only [exBind_error] at h
    exact Except.noConfusion h

theorem createChannel_ok_shape {cid : JStr} {now : Int} {params : ChannelParams}
    {out : JStr × ChannelState} (h : createChannel cid now params = .ok out) :
    out = (cid,
      { channelId := cid, nonce := 0, trader := params.trader, lp := params.lp,
        traderBalances := [⟨params.tokenIn.map toLowerChar, params.traderDeposit⟩],
        lpBalances := [⟨params.tokenOut.map toLowerChar, params.lpDeposit⟩],
        timestamp := now, chainId := params.chainId }) := by
  unfold createChannel at h
  cases hinner : createChannelInner cid now params with
  | error e => simp only [hinner] at h; exact Except.noConfusion h
  | ok st =>
    simp only [hinner] at h
    injection h with h'
    subst h'
    unfold createChannelInner at hinner
    cases hv : validateChannelParams params with
    | error e =>
      rw [hv] at hinner
      simp only [exBind_error] at hinner
      exact Except.noConfusion hinner
    | ok u =>
      cases u
      rw [hv] at hinner
      simp only [exBind_ok] at hinner
      cases hta : createTokenAmount params.tokenIn params.traderDeposit with
      | error e =>
        rw [hta] at hinner
        simp only [exBind_error] at hinner
        exact Except.noConfusion hinner
      | ok tIn =>
        rw [hta] at hinner
        simp only [exBind_ok] at hinner
        cases htb : createTokenAmount params.tokenOut params.lpDeposit with
        | error e =>
          rw [htb] at hinner
          simp only [exBind_error] at hinner
          exact Except.noConfusion hinner
        | ok tOut =>
          rw [htb] at hinner
          simp only [exBind_ok] at hinner
          injection hinner with h2
          subst h2
          rw [createTokenAmount_ok hta, createTokenAmount_ok htb]

/-! ## Claims -/

/-- Claim C9: for every channel state whose participant addresses and
token addresses are 0x-prefixed forty-hex-digit lowercase strings,
deserializing the serialized channel state returns exactly the original
state: channel id, nonce, both participants, every balance entry, the
timestamp and the chain id are preserved by the persisted string
representation. -/
theorem C9_serialize_roundtrip (st : ChannelState)
    (ht : isLowerAddr st.trader) (hl : isLowerAddr st.lp)
    (htb : ∀ b ∈ st.traderBalances, isLowerAddr b.token)
    (hlb : ∀ b ∈ st.lpBalances, isLowerAddr b.token) :
    deserializeChannelState (serializeChannelState st) = .ok st := by
  unfold deserializeChannelState serializeChannelState
  simp only [jsBigInt_bigintToString, exBind_ok, createAddress_lower ht,
    createAddress_lower hl, mapTokenAmounts_serialize _ htb, mapTokenAmounts_serialize _ hlb]

/-- Witness for C9: the round trip evaluated on a concrete state with
lowercase addresses. -/
theorem C9_serialize_roundtrip_witness :
    isLowerAddr stEx.trader ∧
      deserializeChannelState (serializeChannelState stEx) = .ok stEx :=
  ⟨by decide, C9_serialize_roundtrip stEx (by decide) (by decide) (by decide) (by decide)⟩

/-- Claim C10: for every signature string of the form 0x followed by
exactly 130 lowercase hexadecimal digits, joinSignature inverts
splitSignature; r is the hex of the first 32 bytes of the 65-byte
signature, s the hex of the next 32 bytes, and v (covered by the round
trip) the final byte. -/
theorem C10_split_join_roundtrip (sig : JStr)
    (hlen : sig.length = 132)
    (hpre : sig.take 2 = ['0', 'x'])
    (hhex : ∀ c ∈ sig.drop 2, c ∈ lowerHexChars) :
    joinSignature (splitSignature sig) = sig ∧
      (splitSignature sig).r = '0' :: 'x' :: (sig.drop 2).take 64 ∧
      (splitSignature sig).s = '0' :: 'x' :: ((sig.drop 2).drop 64).take 64 := by
  refine ⟨?_, rfl, rfl⟩
  have htlen : (sig.drop 2).length = 130 := by rw [List.length_drop, hlen]
  have h2 : ((sig.drop 2).drop 128).length = 2 := by rw [List.length_drop, htlen]
  obtain ⟨c1, c2, hc⟩ := List.length_eq_two.mp h2
  have hmem1 : c1 ∈ lowerHexChars :=
    hhex c1 (List.drop_subset _ _ (by rw [hc]; exact List.mem_cons_self _ _))
  have hmem2 : c2 ∈ lowerHexChars :=
    hhex c2 (List.drop_subset _ _ (by rw [hc]; exact List.mem_cons_of_mem _ (List.mem_cons_self _ _)))
  have hv1 : isJsHexDigit c1 = true := lowerHex_isJsHexDigit c1 hmem1
  have hv2 : isJsHexDigit c2 = true := lowerHex_isJsHexDigit c2 hmem2
  have hpp : padStart2 (natToString16 (16 * jsHexVal c1 + jsHexVal c2)) =
      [hexCharOf (jsHexVal c1), hexCharOf (jsHexVal c2)] :=
    hexPair ⟨jsHexVal c1, lowerHex_val_lt c1 hmem1⟩ ⟨jsHexVal c2, lowerHex_val_lt c2 hmem2⟩
  rw [hexCharOf_jsHexVal c1 hmem1, hexCharOf_jsHexVal c2 hmem2] at hpp
  show '0' :: 'x' ::
      ((sig.drop 2).take 64 ++ (((sig.drop 2).drop 64).take 64 ++
        padStart2 (natToString16 (parseIntHex (((sig.drop 2).drop 128).take 2))))) = sig
  rw [hc]
  rw [show ([c1, c2] : JStr).take 2 = [c1, c2] from rfl]
  rw [parseIntHex_pair hv1 hv2, hpp]
  have hdd : ((sig.drop 2).drop 64).drop 64 = (sig.drop 2).drop 128 := by
    rw [List.drop_drop]
  have hsplit : (sig.drop 2).take 64 ++ (((sig.drop 2).drop 64).take 64 ++
      (((sig.drop 2).drop 64).drop 64)) = sig.drop 2 := by
    rw [List.take_append_drop, List.take_append_drop]
  rw [hdd, hc] at hsplit
  rw [hsplit]
  conv_rhs => rw [← List.take_append_drop 2 sig]
  rw [hpre]
  rfl

set_option maxRecDepth 4000 in
/-- Witness for C10: the round trip evaluated on a concrete 132-character
signature string. -/
theorem C10_split_join_roundtrip_witness :
    sigEx.length = 132 ∧ joinSignature (splitSignature sigEx) = sigEx :=
  ⟨by decide, (C10_split_join_roundtrip sigEx (by decide) (by decide) (by decide)).1⟩

/-- Claim C2: every state transition accepted by updateChannelState has a
nonce strictly greater than the current channel nonce, and every
submission whose nonce is less than or equal to the current nonce is
rejected with the stale-nonce validation error; hence accepted states
carry strictly increasing nonces. -/
theorem C2_nonce_monotonicity (store : Store) (cid : JStr) (newState cur : ChannelState)
    (mt : String) (hcur : getChannelState store cid = some cur) :
    (∀ store', updateChannelState store cid newState mt = .ok store' →
      cur.nonce < newState.nonce) ∧
    (newState.nonce ≤ cur.nonce →
      updateChannelState store cid newState mt =
        .error (.validation "New nonce must be greater than current nonce")) := by
  constructor
  · intro store' h
    obtain ⟨cur', hcur', hv, _⟩ := updateChannelState_ok h
    rw [hcur] at hcur'
    injection hcur' with he
    rw [he]
    exact (validateStateTransition_ok hv).1
  · intro hle
    unfold updateChannelState
    simp only [hcur, validateStateTransition_stale mt hle]

/-- Witness for C2: on the example channel at nonce 2, the transition to
nonce 3 is accepted and has a strictly greater nonce, and the transition
reusing nonce 2 is rejected as stale. -/
theorem C2_nonce_monotonicity_witness :
    stEx.nonce < stGood.nonce ∧
      updateChannelState storeEx cidEx stStale "QUOTE_REQUEST" =
        .error (.validation "New nonce must be greater than current nonce") :=
  ⟨(C2_nonce_monotonicity storeEx cidEx stGood stEx "QUOTE_REQUEST" (by decide)).1
      (setChannelState storeEx cidEx stGood) (by decide),
    (C2_nonce_monotonicity storeEx cidEx stStale stEx "QUOTE_REQUEST" (by decide)).2
      (by decide)⟩

/-- Claim C6: resubmitting a previously accepted quote request (one that
still passes validateQuoteRequest but whose nonce is not above the
current nonce) fails with the stale-nonce validation error and leaves
the store, hence the channel state with its nonce, balances,
participants and timestamp, exactly unchanged. -/
theorem C6_replay_rejected (store : Store) (req : QuoteRequest) (cur : ChannelState)
    (hcur : getChannelState store req.channelId = some cur)
    (hval : validateQuoteRequest req cur = .ok ())
    (hn : req.nonce ≤ cur.nonce) :
    processQuoteRequest store req =
      .error (.validation "New nonce must be greater than current nonce") ∧
    runQuoteRequest store req = store := by
  have hp : processQuoteRequest store req =
      .error (.validation "New nonce must be greater than current nonce") := by
    unfold processQuoteRequest
    simp only [hcur, hval]
    unfold updateChannelState
    simp only [hcur, validateStateTransition_stale "QUOTE_REQUEST"
      (show ({ cur with nonce := req.nonce, timestamp := req.timestamp } :
        ChannelState).nonce ≤ cur.nonce from hn)]
  refine ⟨hp, ?_⟩
  unfold runQuoteRequest
  rw [hp]

/-- Witness for C6: replaying the nonce-2 quote request on the example
channel at nonce 2 leaves the store unchanged. -/
theorem C6_replay_rejected_witness :
    reqStale.nonce ≤ stEx.nonce ∧ runQuoteRequest storeEx reqStale = storeEx :=
  ⟨by decide, (C6_replay_rejected storeEx reqStale stEx (by decide) (by decide)
    (by decide)).2⟩

/-- Claim C7: createChannel fails when trader equals LP, when a deposit
is zero, and when the timeout is below the 3600-second floor, with the
respective wrapped validation messages; and for parameters passing all
three checks (with well-formed token addresses, which the Address type
of the protocol guarantees) it succeeds and returns the generated
channel id together with an initial state at nonce zero holding the two
deposits. -/
theorem C7_createChannel_validation (params : ChannelParams) (cid : JStr) (now : Int) :
    (params.trader = params.lp →
      createChannel cid now params =
        .error (.channel "Failed to create channel: Trader and LP cannot be the same address")) ∧
    (params.trader ≠ params.lp → (params.traderDeposit = 0 ∨ params.lpDeposit = 0) →
      createChannel cid now params =
        .error (.channel "Failed to create channel: Deposits must be positive")) ∧
    (params.trader ≠ params.lp → 0 < params.traderDeposit → 0 < params.lpDeposit →
      params.timeout < 3600 →
      createChannel cid now params =
        .error (.channel "Failed to create channel: Timeout too short")) ∧
    (params.trader ≠ params.lp → 0 < params.traderDeposit → 0 < params.lpDeposit →
      3600 ≤ params.timeout → isAddressFormat params.tokenIn →
      isAddressFormat params.tokenOut →
      createChannel cid now params = .ok (cid,
        { channelId := cid, nonce := 0, trader := params.trader, lp := params.lp,
          traderBalances := [⟨params.tokenIn.map toLowerChar, params.traderDeposit⟩],
          lpBalances := [⟨params.tokenOut.map toLowerChar, params.lpDeposit⟩],
          timestamp := now, chainId := params.chainId })) := by
  refine ⟨?_, ?_, ?_, ?_⟩
  · intro h
    unfold createChannel createChannelInner validateChannelParams
    rw [if_pos h]
    rfl
  · intro h1 h2
    have hd : params.traderDeposit ≤ 0 ∨ params.lpDeposit ≤ 0 := by omega
    unfold createChannel createChannelInner validateChannelParams
    rw [if_neg h1, if_pos hd]
    rfl
  · intro h1 h2 h3 h4
    have hd : ¬(params.traderDeposit ≤ 0 ∨ params.lpDeposit ≤ 0) := by omega
    unfold createChannel createChannelInner validateChannelParams
    rw [if_neg h1, if_neg hd, if_pos h4]
    rfl
  · intro h1 h2 h3 h4 hin hout
    have hd : ¬(params.traderDeposit ≤ 0 ∨ params.lpDeposit ≤ 0) := by omega
    have ht : ¬(params.timeout < 3600) := by omega
    unfold createChannel createChannelInner validateChannelParams createTokenAmount
      createAddress
    rw [if_neg h1, if_neg hd, if_neg ht, if_pos hin, if_pos hout]
    rfl

/-- Witness for C7: the three rejections and the successful creation,
each at concrete parameters. -/
theorem C7_createChannel_validation_witness :
    createChannel cidEx 500 pSame =
      .error (.channel "Failed to create channel: Trader and LP cannot be the same address") ∧
    createChannel cidEx 500 pZeroDep =
      .error (.channel "Failed to create channel: Deposits must be positive") ∧
    createChannel cidEx 500 pShort =
      .error (.channel "Failed to create channel: Timeout too short") ∧
    createChannel cidEx 500 pEx = .ok (cidEx, initEx) := by
  refine ⟨(C7_createChannel_validation pSame cidEx 500).1 (by decide),
    (C7_createChannel_validation pZeroDep cidEx 500).2.1 (by decide) (by decide),
    (C7_createChannel_validation pShort cidEx 500).2.2.1 (by decide) (by decide)
      (by decide) (by decide), ?_⟩
  have h := (C7_createChannel_validation pEx cidEx 500).2.2.2 (by decide) (by decide)
    (by decide) (by decide) (by decide) (by decide)
  rw [h]
  decide

/-- Claim C5: for every token, in every store reachable from channel
creation by accepted operations, the recorded trader balance plus LP
balance of that token in the channel state equals the sum of the initial
deposits of that token recorded at creation. -/
theorem C5_conservation (params : ChannelParams) (cid : JStr) (now : Int)
    (init st : ChannelState) (s : Store) (tok : JStr)
    (hcreate : createChannel cid now params = .ok (cid, init))
    (hreach : Reaches (insertChannel [] cid init) s)
    (hst : getChannelState s cid = some st) :
    tokenTotal st tok = initialDepositTotal params tok := by
  have hshape := createChannel_ok_shape hcreate
  injection hshape with h1 h2
  obtain ⟨st0, hst0, htb, hlb⟩ := reaches_balances hreach cid st hst
  have hinit : getChannelState (insertChannel [] cid init) cid = some init := by
    simp [insertChannel, getChannelState, findDoc]
  rw [hinit] at hst0
  injection hst0 with h3
  unfold tokenTotal
  rw [htb, hlb, ← h3, h2]
  simp [sumToken, initialDepositTotal]

/-- Witness for C5: after creating the example channel and accepting one
quote request, the quote-token total still equals the initial deposits
total for that token. -/
theorem C5_conservation_witness :
    getChannelState s1Ex cidEx = some st1Ex ∧
      tokenTotal st1Ex tokU = initialDepositTotal pEx tokU :=
  ⟨by decide,
    C5_conservation pEx cidEx 500 initEx st1Ex s1Ex tokU (by decide)
      (@Reaches.quote s0Ex s0Ex s1Ex reqC5 (Reaches.refl _) (by decide)) (by decide)⟩

/-- Claim C1 (code bug): the claim states that an accepted fill debits
the buyer quote-token balance by quantity times price over 10 to the 18
and credits the base balance, failing with insufficient balance on
underflow. The code contradicts it: calculatePostFillState copies the
balances unchanged and processFill performs no balance check, so the
example fill whose claimed debit is 6 against a buyer quote balance of 1
is accepted with both balance vectors untouched. -/
theorem C1_fill_leaves_balances_unchanged :
    processFill storeEx fillEx =
      .ok ({ stEx with nonce := 3, timestamp := 1001 },
        setChannelState storeEx cidEx { stEx with nonce := 3, timestamp := 1001 }) ∧
    calculatePostFillState stEx fillEx = { stEx with nonce := 3, timestamp := 1001 } ∧
    (calculatePostFillState stEx fillEx).traderBalances = stEx.traderBalances ∧
    (calculatePostFillState stEx fillEx).lpBalances = stEx.lpBalances ∧
    sumToken tokU stEx.traderBalances < fillEx.quantity * fillEx.price / 1000000000000000000 := by
  refine ⟨by decide, by decide, by decide, by decide, by decide⟩

/-- Claim C3 (code bug): the claim states that a signature is accepted
only when the signer recovered over the message hash equals the claimed
participant. The code contradicts it: validateSignature is a placeholder
checking only string lengths, so one fixed signature is accepted for two
different claimed signers and for two different message hashes, which no
recovery-based check could do. -/
theorem C3_validateSignature_is_placeholder :
    validateSignature sigEx addrA hashEx1 = true ∧
    validateSignature sigEx addrC hashEx1 = true ∧
    validateSignature sigEx addrA hashEx2 = true := by
  refine ⟨by decide, by decide, by decide⟩

/-- Claim C4 (code bug): the claim states that a channel whose status is
not active rejects trading messages with a wrong-status error. The code
contradicts it: no function on the trading path reads the status field,
so after handleChannelTimeout marks the example channel TIMEOUT, a quote
request at nonce 3 is still accepted and advances the stored state while
the status stays TIMEOUT. -/
theorem C4_timed_out_channel_accepts_messages :
    (findDoc (handleChannelTimeout storeEx cidEx) cidEx).map (fun d => d.status) =
      some .timedOutSt ∧
    processQuoteRequest (handleChannelTimeout storeEx cidEx) reqNext =
      .ok (setChannelState (handleChannelTimeout storeEx cidEx) cidEx
        { stEx with nonce := 3, timestamp := 1001 }) ∧
    (findDoc (setChannelState (handleChannelTimeout storeEx cidEx) cidEx
        { stEx with nonce := 3, timestamp := 1001 }) cidEx).map
      (fun d => (d.status, d.state.nonce)) = some (.timedOutSt, 3) := by
  refine ⟨by decide, by decide, by decide⟩

/-- Claim C8 (code bug): the claim states that a checkpoint request
carrying the channel current dual-signed state (state nonce equal to the
current nonce) is accepted, recorded, and the channel returns to active.
The code contradicts it: validateCheckpointRequest demands a strictly
greater nonce, so the request carrying the current state is rejected,
and no code path returns a checkpointing channel to active. -/
theorem C8_checkpoint_at_current_nonce_rejected :
    getChannelState storeEx cidEx = some stEx ∧
    ckReqEx.state.nonce = stEx.nonce ∧
    createCheckpoint storeEx ckReqEx =
      .error (.validation "Checkpoint nonce must be greater than current nonce") := by
  refine ⟨by decide, by decide, by decide⟩

end PhotonX
